import Mathlib

/- Shallow embedding of the QUIC connection state machine implemented in
   net/third_party/quiche/src/quic/core/quic_connection.cc.  Each area of the
   connection object that the verified properties touch is embedded as an
   explicit state structure together with pure transition functions that
   mirror the C++ control flow.  Collaborator modules (framer, writer, packet
   generator, sent-packet manager) live outside this file's source and, where
   a transition consults them, are passed in as explicit oracle parameters or
   projected into state fields. -/

namespace QuicConn

/- Basic protocol enumerations, as used by quic_connection.cc. -/

inductive Perspective
  | isClient
  | isServer
deriving DecidableEq, Repr

inductive EncryptionLevel
  | encInitial
  | encZeroRtt
  | encHandshake
  | encForwardSecure
deriving DecidableEq, Repr

inductive PacketNumberSpace
  | initialData
  | handshakeData
  | applicationData
deriving DecidableEq, Repr

inductive HandshakeProtocol
  | quicCrypto
  | tls13
deriving DecidableEq, Repr

/- ParsedQuicVersion is a pair of handshake protocol and transport version. -/
structure ParsedQuicVersion where
  handshakeProtocol : HandshakeProtocol
  transportVersion : Nat
deriving DecidableEq, Repr

/- The error codes surfaced by the close paths the claims mention. -/
inductive QuicErrorCode
  | invalidAckData
  | internalError
  | invalidVersion
  | invalidVersionNegotiationPacket
  | packetWriteError
deriving DecidableEq, Repr

/- Modelled from quic_versions.h (a collaborator header, not under src/):
   versions after QUIC_VERSION_43 use the IETF invariant header.  None of the
   verified claims depends on the exact cut-off. -/
def hasIetfInvariantHeader (transportVersion : Nat) : Bool :=
  43 < transportVersion

/- ## Retry handling (QuicConnection::OnRetryPacket, lines 783-810)

   The projected state holds the fields OnRetryPacket reads or writes: the
   server connection id, the packet generator's copy of it and of the retry
   token, the retry-already-parsed latch, and the connection id the initial
   crypters are bound to (InstallInitialCrypters re-derives them from the
   current server connection id when the handshake protocol is TLS 1.3). -/

structure RetryState where
  serverConnectionId : Nat
  generatorServerConnectionId : Nat
  generatorRetryToken : List Nat
  retryHasBeenParsed : Bool
  initialCryptersConnectionId : Option Nat
  handshakeProtocol : HandshakeProtocol
deriving DecidableEq, Repr

/- QuicConnection::InstallInitialCrypters (lines 419-429). -/
def installInitialCrypters (s : RetryState) : RetryState :=
  if s.handshakeProtocol ≠ HandshakeProtocol.tls13 then s
  else { s with initialCryptersConnectionId := some s.serverConnectionId }

/- QuicConnection::OnRetryPacket (lines 783-810). -/
def onRetryPacket (s : RetryState) (originalConnectionId newConnectionId : Nat)
    (retryToken : List Nat) : RetryState :=
  if originalConnectionId ≠ s.serverConnectionId then s
  else if s.retryHasBeenParsed then s
  else
    let s1 : RetryState :=
      { s with retryHasBeenParsed := true,
               serverConnectionId := newConnectionId,
               generatorServerConnectionId := newConnectionId,
               generatorRetryToken := retryToken }
    installInitialCrypters s1

/- ## Network timeouts (QuicConnection::SetNetworkTimeouts, lines 3241-3257)

   QuicTime::Delta is a signed count of microseconds; the function returns the
   pair (handshake_timeout_, idle_network_timeout_) it stores. -/

def setNetworkTimeouts (perspective : Perspective)
    (handshakeTimeoutUs idleTimeoutUs : Int) : Int × Int :=
  let idle : Int :=
    if perspective = Perspective.isServer then idleTimeoutUs + 3000000
    else if idleTimeoutUs > 1000000 then idleTimeoutUs - 1000000
    else idleTimeoutUs
  (handshakeTimeoutUs, idle)

/- ## ACK frame arrival (QuicConnection::OnAckFrameStart, lines 1107-1163)

   Projected state: the fields the handler reads.  GetLargestReceivedPacketWithAck,
   GetLargestSentPacket and GetLargestAckedPacket resolve, for the number space
   of the last decrypted packet, to optional packet numbers (QuicPacketNumber
   may be uninitialized, embedded as Option Nat). -/

structure AckFrameState where
  connected : Bool
  processingAckFrame : Bool
  lastHeaderPacketNumber : Nat
  largestSeenPacketWithAck : Option Nat
  largestSentPacket : Option Nat
  largestAckedPacket : Option Nat
  tolerateReneging : Bool
deriving DecidableEq, Repr

inductive AckCloseDetail
  | newAckWhileProcessing
  | largestObservedTooHigh
  | largestObservedTooLow
deriving DecidableEq, Repr

inductive AckStartEvent
  | closeInvalidAckData (d : AckCloseDetail)
  | forwardProgressConfirmed
  | managerAckStarted
deriving DecidableEq, Repr

/- Is the enclosing packet an old ack packet (lines 1125-1129)?  True when the
   largest packet seen with an ack is initialized and the current header's
   packet number does not exceed it. -/
def isOldAckPacket (s : AckFrameState) : Bool :=
  match s.largestSeenPacketWithAck with
  | none => false
  | some m => s.lastHeaderPacketNumber ≤ m

/- Does largest_acked exceed everything we sent (lines 1131-1132)?  True when
   the largest sent packet is uninitialized or strictly below largest_acked. -/
def ackObservesUnsentPacket (s : AckFrameState) (largestAcked : Nat) : Bool :=
  match s.largestSentPacket with
  | none => true
  | some sent => sent < largestAcked

/- QuicConnection::OnAckFrameStart (lines 1107-1163).  Returns the bool the
   handler returns, the updated state, and the list of externally visible
   events in order. -/
def onAckFrameStart (s : AckFrameState) (largestAcked : Nat) :
    Bool × AckFrameState × List AckStartEvent :=
  if s.processingAckFrame then
    (false, { s with connected := false },
      [AckStartEvent.closeInvalidAckData AckCloseDetail.newAckWhileProcessing])
  else if isOldAckPacket s then
    (true, s, [])
  else if ackObservesUnsentPacket s largestAcked then
    (false, { s with connected := false },
      [AckStartEvent.closeInvalidAckData AckCloseDetail.largestObservedTooHigh])
  else
    let forwardProgress : Bool :=
      match s.largestAckedPacket with
      | none => true
      | some acked => acked < largestAcked
    if forwardProgress then
      (true, { s with processingAckFrame := true },
        [AckStartEvent.forwardProgressConfirmed, AckStartEvent.managerAckStarted])
    else if !s.tolerateReneging &&
        (match s.largestAckedPacket with
         | none => false
         | some acked => largestAcked < acked) then
      (false, { s with connected := false },
        [AckStartEvent.closeInvalidAckData AckCloseDetail.largestObservedTooLow])
    else
      (true, { s with processingAckFrame := true },
        [AckStartEvent.managerAckStarted])

/- ## Close path (QuicConnection::CloseConnection lines 3128-3148,
   TearDownLocalConnectionState lines 3176-3196, CancelAllAlarms lines
   3198-3209)

   The eight alarms are embedded as their IsSet flags.  SendConnectionClosePacket
   and FlushPackets act mostly on collaborators (packet generator, writer); they
   are passed as oracle step functions, constrained in the theorems to the
   behaviour visible in the source: neither one marks the connection
   disconnected or notifies the visitor of a close. -/

structure AlarmSet where
  ackAlarm : Bool
  pingAlarm : Bool
  retransmissionAlarm : Bool
  sendAlarm : Bool
  timeoutAlarm : Bool
  mtuDiscoveryAlarm : Bool
  pathDegradingAlarm : Bool
  processUndecryptablePacketsAlarm : Bool
deriving DecidableEq, Repr

def AlarmSet.allCancelled : AlarmSet :=
  ⟨false, false, false, false, false, false, false, false⟩

structure CloseState where
  connected : Bool
  alarms : AlarmSet
  visitorCloseNotifications : Nat
deriving DecidableEq, Repr

inductive ConnectionCloseBehavior
  | silentClose
  | sendConnectionClosePacket
deriving DecidableEq, Repr

/- QuicConnection::CancelAllAlarms (lines 3198-3209). -/
def cancelAllAlarms (s : CloseState) : CloseState :=
  { s with alarms := AlarmSet.allCancelled }

/- QuicConnection::TearDownLocalConnectionState (lines 3176-3196).  fp is the
   FlushPackets step (writer flush). -/
def tearDownLocalConnectionState (fp : CloseState → CloseState)
    (s : CloseState) : CloseState :=
  if !s.connected then s
  else
    let s1 := fp s
    let s2 := { s1 with connected := false,
                        visitorCloseNotifications := s1.visitorCloseNotifications + 1 }
    cancelAllAlarms s2

/- QuicConnection::CloseConnection (lines 3128-3148).  scp is the
   SendConnectionClosePacket step. -/
def closeConnection (scp fp : CloseState → CloseState)
    (behavior : ConnectionCloseBehavior) (s : CloseState) : CloseState :=
  if !s.connected then s
  else
    let s1 :=
      if behavior ≠ ConnectionCloseBehavior.silentClose then scp s else s
    tearDownLocalConnectionState fp s1

/- An oracle step that, like SendConnectionClosePacket and FlushPackets in the
   source, never flips connected_ and never fires the visitor's
   OnConnectionClosed callback. -/
def PreservesCloseMarkers (f : CloseState → CloseState) : Prop :=
  ∀ s : CloseState, (f s).connected = s.connected ∧
    (f s).visitorCloseNotifications = s.visitorCloseNotifications

/- ## Queue discipline (QuicConnection::SendOrQueuePacket lines 2857-2873,
   WriteQueuedPackets lines 2323-2357)

   A queued packet is projected to its encrypted buffer (null in C++ becomes
   none) and packet number.  WritePacket is a large effectful routine; for the
   queue discipline it is passed in as an oracle step wp returning the bool it
   returns plus the successor state.  SendVersionNegotiationPacket (invoked at
   the top of WriteQueuedPackets when a version negotiation packet is pending)
   is likewise passed as an oracle step. -/

structure QueuedPacket where
  encryptedBuffer : Option (List Nat)
  packetNumber : Nat
deriving DecidableEq, Repr

structure SendQueueState where
  connected : Bool
  queuedPackets : List QueuedPacket
  pendingVersionNegotiationPacket : Bool
deriving DecidableEq, Repr

/- QuicConnection::SendOrQueuePacket (lines 2857-2873).  The C++ condition
   short-circuits: with a non-empty queue WritePacket is not invoked at all;
   with an empty queue a failed WritePacket leads to CopyBuffer (same bytes,
   freshly owned) and push_back at the tail. -/
def sendOrQueuePacket (wp : QueuedPacket → SendQueueState → Bool × SendQueueState)
    (p : QueuedPacket) (s : SendQueueState) : SendQueueState :=
  match p.encryptedBuffer with
  | none => s
  | some _ =>
    if s.queuedPackets ≠ [] then
      { s with queuedPackets := s.queuedPackets ++ [p] }
    else
      let r := wp p s
      if r.1 then r.2
      else { r.2 with queuedPackets := r.2.queuedPackets ++ [p] }

/- The while loop of QuicConnection::WriteQueuedPackets (lines 2332-2356),
   with explicit fuel.  Each iteration pops the head (the C++ moves the front
   out before calling WritePacket precisely because WritePacket may clear the
   queue), calls WritePacket, re-inserts the packet at the front and stops if
   the write failed while still connected, and stops if disconnected. -/
def writeQueuedLoop (wp : QueuedPacket → SendQueueState → Bool × SendQueueState) :
    Nat → SendQueueState → SendQueueState
  | 0, s => s
  | fuel + 1, s =>
    match s.queuedPackets with
    | [] => s
    | p :: rest =>
      let s1 : SendQueueState := { s with queuedPackets := rest }
      let r := wp p s1
      if r.2.connected && !r.1 then
        { r.2 with queuedPackets := p :: r.2.queuedPackets }
      else if !r.2.connected then r.2
      else writeQueuedLoop wp fuel r.2

/- QuicConnection::WriteQueuedPackets (lines 2323-2357).  svnp is the
   SendVersionNegotiationPacket step.  The fuel (one unit per initially queued
   packet) is exact whenever WritePacket leaves the queue alone while the
   connection stays open, which the theorems assume. -/
def writeQueuedPackets (wp : QueuedPacket → SendQueueState → Bool × SendQueueState)
    (svnp : SendQueueState → SendQueueState) (s : SendQueueState) : SendQueueState :=
  let s0 := if s.pendingVersionNegotiationPacket then svnp s else s
  writeQueuedLoop wp s0.queuedPackets.length s0

/- WritePacket in the source mutates queued_packets_ only through connection
   close (which also clears connected_), so while it reports the connection
   still connected it has left the queue untouched. -/
def QueuePreserving (wp : QueuedPacket → SendQueueState → Bool × SendQueueState) : Prop :=
  ∀ p s, (wp p s).2.connected = true → (wp p s).2.queuedPackets = s.queuedPackets

/- Spec-side drain, written from the specification's words for the refinement
   claim: drain the queue in FIFO order; on a failing write with the connection
   still connected, re-insert the packet at the head and terminate the drain;
   stop as well when the connection got closed. -/
def drainFIFO (wp : QueuedPacket → SendQueueState → Bool × SendQueueState) :
    List QueuedPacket → SendQueueState → SendQueueState
  | [], s => s
  | p :: rest, s =>
    let r := wp p { s with queuedPackets := rest }
    if r.2.connected && !r.1 then
      { r.2 with queuedPackets := p :: r.2.queuedPackets }
    else if !r.2.connected then r.2
    else drainFIFO wp rest r.2

/- ## WritePacket pre-write checks (QuicConnection::WritePacket, lines
   2514-2690)

   The projected state keeps the fields relevant to the out-of-order close and
   to the sent-packet-number log.  The UDP writer's verdict is an oracle.
   sent_packet_manager_.OnPacketSent lives outside src/; its largest-sent
   update is modelled from the spec ("Monotone largest sent" plus the ack
   validation against GetLargestSentPacket): after a packet is sent, the
   largest sent packet number is the number just sent. -/

structure WPPacket where
  packetNumber : Nat
  encryptionLevel : EncryptionLevel
  hasConnectionCloseFrame : Bool
  hasRetransmittableFrames : Bool
  encryptedLength : Nat
deriving DecidableEq, Repr

inductive WriteStatus
  | statusOk
  | statusBlocked
  | statusBlockedDataBuffered
  | statusMsgTooBig
  | statusError
deriving DecidableEq, Repr

structure WriteState where
  connected : Bool
  encryptionLevel : EncryptionLevel
  largestSentPacket : Option Nat
  writerBlocked : Bool
  sentPacketNumbers : List Nat
  terminationPacketsSaved : Nat
  closeError : Option QuicErrorCode
  mtuDiscoveryTarget : Nat
  longTermMtu : Nat
deriving DecidableEq, Repr

/- QuicConnection::ShouldDiscardPacket (lines 2725-2744). -/
def shouldDiscardPacket (s : WriteState) (p : WPPacket) : Bool :=
  if !s.connected then true
  else if s.encryptionLevel = EncryptionLevel.encForwardSecure &&
      p.encryptionLevel = EncryptionLevel.encInitial then true
  else false

/- QuicConnection::HandleWriteBlocked (lines 1798-1805), projected to the
   writer's IsWriteBlocked bit. -/
def handleWriteBlocked (s : WriteState) : Bool :=
  s.writerBlocked

/- Is the packet number out of order (lines 2519-2520)? -/
def packetOutOfOrder (s : WriteState) (p : WPPacket) : Bool :=
  match s.largestSentPacket with
  | none => false
  | some largest => p.packetNumber < largest

/- IsWriteError in quic_types.h covers WRITE_STATUS_ERROR and
   WRITE_STATUS_MSG_TOO_BIG; the dedicated MsgTooBig MTU branch (lines
   2607-2615) runs first. -/
def isWriteErrorStatus (st : WriteStatus) : Bool :=
  st = WriteStatus.statusError || st = WriteStatus.statusMsgTooBig

/- The tail of QuicConnection::WritePacket from the termination-while-blocked
   early return through the writer call, the status dispatch and the
   sent-packet-manager notification (lines 2540-2690), applied to the state s1
   in which the termination packet, if any, has already been saved. -/
def writePacketDispatch (writerResult : WPPacket → WriteState → WriteStatus)
    (s1 : WriteState) (p : WPPacket) : Bool × WriteState :=
  if p.hasConnectionCloseFrame && handleWriteBlocked s1 then
    (true, s1)
  else if writerResult p s1 = WriteStatus.statusBlocked then
    (false, s1)
  else if writerResult p s1 = WriteStatus.statusMsgTooBig &&
      !p.hasRetransmittableFrames && s1.longTermMtu < p.encryptedLength then
    (true, { s1 with mtuDiscoveryTarget := 0 })
  else if isWriteErrorStatus (writerResult p s1) then
    (false, { s1 with connected := false,
                      closeError := some QuicErrorCode.packetWriteError })
  else
    (true, { s1 with
      sentPacketNumbers := s1.sentPacketNumbers ++ [p.packetNumber],
      largestSentPacket := some p.packetNumber })

/- QuicConnection::WritePacket (lines 2514-2690), projected to the embedded
   fields.  writerResult is the writer_->WritePacket verdict for this packet in
   this state. -/
def writePacket (writerResult : WPPacket → WriteState → WriteStatus)
    (s : WriteState) (p : WPPacket) : Bool × WriteState :=
  if shouldDiscardPacket s p then
    (true, s)
  else if packetOutOfOrder s p then
    (true, { s with connected := false,
                    closeError := some QuicErrorCode.internalError })
  else if handleWriteBlocked s && !p.hasConnectionCloseFrame then
    (false, s)
  else
    writePacketDispatch writerResult
      (if p.hasConnectionCloseFrame then
        { s with terminationPacketsSaved := s.terminationPacketsSaved + 1 }
       else s) p

/- The monotone-send invariant: the log of sent packet numbers never
   decreases, and every logged number is bounded by the tracked largest sent
   packet. -/
def SentLogMonotone (s : WriteState) : Prop :=
  List.Pairwise (· ≤ ·) s.sentPacketNumbers ∧
    ∀ x ∈ s.sentPacketNumbers,
      ∃ largest, s.largestSentPacket = some largest ∧ x ≤ largest

/- ## Version negotiation (QuicConnection::SelectMutualVersion lines 577-593,
   OnProtocolVersionMismatch lines 628-696, OnVersionNegotiationPacket lines
   699-780)

   The projected state carries the negotiation FSM, the framer's current and
   supported versions, the flags the handlers consult, and event fields for
   the externally visible actions (version negotiation packet emission,
   visitor notification, retransmission of unacked packets, connection
   close). -/

inductive VersionNegotiationState
  | startNegotiation
  | negotiationInProgress
  | negotiatedVersion
deriving DecidableEq, Repr

structure VersionState where
  perspective : Perspective
  connected : Bool
  versionNegotiationState : VersionNegotiationState
  framerVersion : ParsedQuicVersion
  supportedVersions : List ParsedQuicVersion
  serverSupportedVersions : List ParsedQuicVersion
  noClientConnVerNegotiationFlag : Bool
  noVersionNegotiation : Bool
  noStopWaitingFrames : Bool
  closeError : Option QuicErrorCode
  sentVersionNegotiationPacket : Bool
  visitorNotifiedOfSuccess : Bool
  retransmittedAllUnacked : Bool
deriving DecidableEq, Repr

/- A local close: the nested CloseConnection marks the connection disconnected
   and records the error code (the alarm/visitor bookkeeping of the close path
   is embedded separately above). -/
def vsClose (s : VersionState) (e : QuicErrorCode) : VersionState :=
  if !s.connected then s
  else { s with connected := false, closeError := some e }

/- QuicConnection::SelectMutualVersion (lines 577-593): walk the framer's
   supported versions in preference order and latch the first one the peer
   also lists into the framer. -/
def selectMutualVersion (s : VersionState)
    (availableVersions : List ParsedQuicVersion) : Bool × VersionState :=
  match s.supportedVersions.find? (fun v => availableVersions.contains v) with
  | some v => (true, { s with framerVersion := v })
  | none => (false, s)

/- The tail of OnProtocolVersionMismatch (lines 676-695): store the new
   version, advance to NEGOTIATED_VERSION, notify the visitor, refresh the
   no-stop-waiting flag. -/
def acceptNewVersion (s : VersionState) (v : ParsedQuicVersion) :
    Bool × VersionState :=
  (true,
    { s with framerVersion := v,
             versionNegotiationState := VersionNegotiationState.negotiatedVersion,
             visitorNotifiedOfSuccess := true,
             noStopWaitingFrames := hasIetfInvariantHeader v.transportVersion })

/- QuicConnection::OnProtocolVersionMismatch (lines 628-696).  The
   PacketHeaderFormat argument only selects the flavour of the emitted version
   negotiation packet and is dropped in this projection. -/
def onProtocolVersionMismatch (s : VersionState)
    (receivedVersion : ParsedQuicVersion) : Bool × VersionState :=
  if s.perspective = Perspective.isClient then
    (false, vsClose s QuicErrorCode.internalError)
  else if s.noVersionNegotiation then
    (false, s)
  else
    match s.versionNegotiationState with
    | VersionNegotiationState.startNegotiation =>
      if !s.supportedVersions.contains receivedVersion then
        (false, { s with
          sentVersionNegotiationPacket := true,
          versionNegotiationState := VersionNegotiationState.negotiationInProgress })
      else acceptNewVersion s receivedVersion
    | VersionNegotiationState.negotiationInProgress =>
      if !s.supportedVersions.contains receivedVersion then
        (false, { s with sentVersionNegotiationPacket := true })
      else acceptNewVersion s receivedVersion
    | VersionNegotiationState.negotiatedVersion =>
      (false, s)

/- QuicConnection::OnVersionNegotiationPacket (lines 699-780). -/
def onVersionNegotiationPacket (s : VersionState)
    (packetVersions : List ParsedQuicVersion) : VersionState :=
  if s.perspective = Perspective.isServer then
    vsClose s QuicErrorCode.internalError
  else if s.versionNegotiationState ≠ VersionNegotiationState.startNegotiation then
    s
  else if packetVersions.contains s.framerVersion then
    vsClose s QuicErrorCode.invalidVersionNegotiationPacket
  else
    let s1 := { s with serverSupportedVersions := packetVersions }
    if s1.noClientConnVerNegotiationFlag then
      vsClose s1 QuicErrorCode.invalidVersion
    else
      let originalVersion := s1.framerVersion
      let r := selectMutualVersion s1 packetVersions
      if !r.1 then
        vsClose r.2 QuicErrorCode.invalidVersion
      else if originalVersion.handshakeProtocol ≠ r.2.framerVersion.handshakeProtocol then
        vsClose r.2 QuicErrorCode.invalidVersion
      else
        { r.2 with
          noStopWaitingFrames :=
            hasIetfInvariantHeader r.2.framerVersion.transportVersion,
          versionNegotiationState := VersionNegotiationState.negotiationInProgress,
          retransmittedAllUnacked := true }

/- ## Multi-space pending acks (QuicConnection::SendAllPendingAcks, lines
   4097-4157)

   Projected state: the default encryption level, the per-space ack timeouts
   of the uber received-packet manager, the framer's per-level encrypter
   availability, the clock, the ack alarm deadline, and a log of the ACK
   frames flushed, each tagged with the encryption level in force when
   packet_generator_.FlushAckFrame ran.  The generator's flush verdict (false
   when the connection is write blocked) is an oracle per space. -/

structure MultiAckState where
  encryptionLevel : EncryptionLevel
  initialAckTimeout : Option Nat
  handshakeAckTimeout : Option Nat
  applicationAckTimeout : Option Nat
  hasInitialEncrypter : Bool
  hasHandshakeEncrypter : Bool
  hasForwardSecureEncrypter : Bool
  now : Nat
  ackAlarmDeadline : Option Nat
  flushedAcks : List (PacketNumberSpace × EncryptionLevel)
deriving DecidableEq, Repr

/- QuicUtils::GetEncryptionLevel per packet number space. -/
def spaceEncryptionLevel : PacketNumberSpace → EncryptionLevel
  | PacketNumberSpace.initialData => EncryptionLevel.encInitial
  | PacketNumberSpace.handshakeData => EncryptionLevel.encHandshake
  | PacketNumberSpace.applicationData => EncryptionLevel.encForwardSecure

/- QuicUtils::GetPacketNumberSpace per encryption level. -/
def levelPacketNumberSpace : EncryptionLevel → PacketNumberSpace
  | EncryptionLevel.encInitial => PacketNumberSpace.initialData
  | EncryptionLevel.encHandshake => PacketNumberSpace.handshakeData
  | EncryptionLevel.encZeroRtt => PacketNumberSpace.applicationData
  | EncryptionLevel.encForwardSecure => PacketNumberSpace.applicationData

def getAckTimeout (s : MultiAckState) : PacketNumberSpace → Option Nat
  | PacketNumberSpace.initialData => s.initialAckTimeout
  | PacketNumberSpace.handshakeData => s.handshakeAckTimeout
  | PacketNumberSpace.applicationData => s.applicationAckTimeout

def setAckTimeout (s : MultiAckState) (sp : PacketNumberSpace)
    (v : Option Nat) : MultiAckState :=
  match sp with
  | PacketNumberSpace.initialData => { s with initialAckTimeout := v }
  | PacketNumberSpace.handshakeData => { s with handshakeAckTimeout := v }
  | PacketNumberSpace.applicationData => { s with applicationAckTimeout := v }

def hasEncrypterOfLevel (s : MultiAckState) : EncryptionLevel → Bool
  | EncryptionLevel.encInitial => s.hasInitialEncrypter
  | EncryptionLevel.encHandshake => s.hasHandshakeEncrypter
  | EncryptionLevel.encForwardSecure => s.hasForwardSecureEncrypter
  | EncryptionLevel.encZeroRtt => false

/- The per-space guard at lines 4103-4108: skip unless the space's ack timeout
   is initialized and not in the future. -/
def ackTimeoutDue (s : MultiAckState) (sp : PacketNumberSpace) : Bool :=
  match getAckTimeout s sp with
  | none => false
  | some t => !(s.now < t)

/- QuicConnection::SetDefaultEncryptionLevel (lines 2986-2994), projected to
   the level itself (the flush of queued frames acts on the generator). -/
def setDefaultEncryptionLevel (s : MultiAckState) (l : EncryptionLevel) :
    MultiAckState :=
  { s with encryptionLevel := l }

/- QuicConnection::ResetAckStates (lines 4009-4022) in the uber-manager
   configuration: clears the ack state of the packet number space of the
   current encryption level. -/
def resetAckStates (s : MultiAckState) : MultiAckState :=
  setAckTimeout s (levelPacketNumberSpace s.encryptionLevel) none

/- GetEarliestAckTimeout of the uber received-packet manager (a collaborator
   outside src/), modelled from the spec's per-space ack timeout tracking: the
   smallest initialized per-space timeout. -/
def earliestAckTimeout (s : MultiAckState) : Option Nat :=
  [s.initialAckTimeout, s.handshakeAckTimeout, s.applicationAckTimeout].foldl
    (fun acc t =>
      match acc, t with
      | none, t => t
      | some a, none => some a
      | some a, some b => some (min a b))
    none

/- The for loop of SendAllPendingAcks (lines 4102-4132), iterating the spaces
   INITIAL_DATA, HANDSHAKE_DATA, APPLICATION_DATA in order.  flushOk is the
   generator's FlushAckFrame verdict; on failure the loop breaks. -/
def sendAcksLoop (flushOk : PacketNumberSpace → Bool) :
    List PacketNumberSpace → MultiAckState → MultiAckState
  | [], s => s
  | sp :: rest, s =>
    if !ackTimeoutDue s sp then
      sendAcksLoop flushOk rest s
    else if !hasEncrypterOfLevel s (spaceEncryptionLevel sp) then
      sendAcksLoop flushOk rest s
    else
      let s1 := setDefaultEncryptionLevel s (spaceEncryptionLevel sp)
      if !flushOk sp then s1
      else
        let s2 := { s1 with flushedAcks := s1.flushedAcks ++ [(sp, s1.encryptionLevel)] }
        sendAcksLoop flushOk rest (resetAckStates s2)

/- The alarm re-arm at the end of SendAllPendingAcks (lines 4136-4141): if
   there are ACKs still pending, set the ack alarm to the earliest per-space
   timeout. -/
def rearmAckAlarm (s : MultiAckState) : MultiAckState :=
  match earliestAckTimeout s with
  | some t => { s with ackAlarmDeadline := some t }
  | none => s

/- QuicConnection::SendAllPendingAcks (lines 4097-4157): latch the current
   encryption level, run the per-space loop, restore the level, and re-arm the
   ack alarm to the earliest remaining timeout if any. -/
def sendAllPendingAcks (flushOk : PacketNumberSpace → Bool)
    (s : MultiAckState) : MultiAckState :=
  let currentEncryptionLevel := s.encryptionLevel
  let s1 := sendAcksLoop flushOk
    [PacketNumberSpace.initialData, PacketNumberSpace.handshakeData,
     PacketNumberSpace.applicationData] s
  rearmAckAlarm (setDefaultEncryptionLevel s1 currentEncryptionLevel)

/- The net effect of one successful loop iteration of SendAllPendingAcks on
   space sp: switch to the space's encryption level, log the flushed ACK at
   that level, and clear the space's ack timeout. -/
def ackFlushStep (s : MultiAckState) (sp : PacketNumberSpace) : MultiAckState :=
  setAckTimeout
    { s with encryptionLevel := spaceEncryptionLevel sp,
             flushedAcks := s.flushedAcks ++ [(sp, spaceEncryptionLevel sp)] }
    sp none

/- ## Concrete states used to evaluate the transitions on explicit inputs. -/

def ackExampleState : AckFrameState :=
  { connected := true
    processingAckFrame := false
    lastHeaderPacketNumber := 5
    largestSeenPacketWithAck := some 3
    largestSentPacket := some 10
    largestAckedPacket := some 7
    tolerateReneging := false }

def retryExampleState : RetryState :=
  { serverConnectionId := 1
    generatorServerConnectionId := 1
    generatorRetryToken := []
    retryHasBeenParsed := false
    initialCryptersConnectionId := some 1
    handshakeProtocol := HandshakeProtocol.tls13 }

/- A WritePacket oracle whose UDP writer always reports success. -/
def okWriter : WPPacket → WriteState → WriteStatus :=
  fun _ _ => WriteStatus.statusOk

/- A connected, forward-secure connection that has already sent packet 10. -/
def writeExampleState : WriteState :=
  { connected := true
    encryptionLevel := EncryptionLevel.encForwardSecure
    largestSentPacket := some 10
    writerBlocked := false
    sentPacketNumbers := [10]
    terminationPacketsSaved := 0
    closeError := none
    mtuDiscoveryTarget := 1500
    longTermMtu := 1200 }

/- An out-of-order Initial-level packet: its number is below the largest sent. -/
def staleInitialPacket : WPPacket :=
  { packetNumber := 5
    encryptionLevel := EncryptionLevel.encInitial
    hasConnectionCloseFrame := false
    hasRetransmittableFrames := true
    encryptedLength := 100 }

/- Same connection before the handshake confirmed: Initial level current. -/
def writeExampleStateInitial : WriteState :=
  { writeExampleState with encryptionLevel := EncryptionLevel.encInitial }

def closeExampleState : CloseState :=
  { connected := true
    alarms := ⟨true, true, true, true, true, true, true, true⟩
    visitorCloseNotifications := 0 }

/- A queue-level WritePacket oracle that always succeeds and changes nothing. -/
def okQueueWriter : QueuedPacket → SendQueueState → Bool × SendQueueState :=
  fun _ s => (true, s)

def queuedA : QueuedPacket := { encryptedBuffer := some [1, 2], packetNumber := 1 }

def queuedB : QueuedPacket := { encryptedBuffer := some [3], packetNumber := 2 }

def emptyQueueState : SendQueueState :=
  { connected := true, queuedPackets := [], pendingVersionNegotiationPacket := false }

def twoQueuedState : SendQueueState :=
  { connected := true
    queuedPackets := [queuedA, queuedB]
    pendingVersionNegotiationPacket := false }

def versionQ46 : ParsedQuicVersion :=
  { handshakeProtocol := HandshakeProtocol.quicCrypto, transportVersion := 46 }

def versionQ43 : ParsedQuicVersion :=
  { handshakeProtocol := HandshakeProtocol.quicCrypto, transportVersion := 43 }

def versionT99 : ParsedQuicVersion :=
  { handshakeProtocol := HandshakeProtocol.tls13, transportVersion := 99 }

/- A client that has sent its first flight with version Q046 and supports, in
   preference order, Q046 and then the TLS 1.3 version T099. -/
def clientStartState : VersionState :=
  { perspective := Perspective.isClient
    connected := true
    versionNegotiationState := VersionNegotiationState.startNegotiation
    framerVersion := versionQ46
    supportedVersions := [versionQ46, versionT99]
    serverSupportedVersions := []
    noClientConnVerNegotiationFlag := false
    noVersionNegotiation := false
    noStopWaitingFrames := false
    closeError := none
    sentVersionNegotiationPacket := false
    visitorNotifiedOfSuccess := false
    retransmittedAllUnacked := false }

/- The same client but with Q043 as the fallback version. -/
def clientStartStateQ : VersionState :=
  { clientStartState with supportedVersions := [versionQ46, versionQ43] }

/- A server that already emitted a version negotiation packet. -/
def serverInProgressState : VersionState :=
  { clientStartState with
      perspective := Perspective.isServer
      versionNegotiationState := VersionNegotiationState.negotiationInProgress
      framerVersion := versionQ43
      supportedVersions := [versionQ46, versionQ43] }

/- An ack-flush oracle for a generator that is never write blocked. -/
def alwaysFlushOk : PacketNumberSpace → Bool := fun _ => true

/- A connection at the handshake level with acks due in the Initial and
   ApplicationData spaces. -/
def multiAckExampleState : MultiAckState :=
  { encryptionLevel := EncryptionLevel.encHandshake
    initialAckTimeout := some 1
    handshakeAckTimeout := none
    applicationAckTimeout := some 2
    hasInitialEncrypter := true
    hasHandshakeEncrypter := true
    hasForwardSecureEncrypter := true
    now := 5
    ackAlarmDeadline := none
    flushedAcks := [] }

/- ## Helper lemmas shared between the claim theorems. -/

theorem installInitialCrypters_fields (s : RetryState) :
    (installInitialCrypters s).serverConnectionId = s.serverConnectionId ∧
    (installInitialCrypters s).generatorServerConnectionId = s.generatorServerConnectionId ∧
    (installInitialCrypters s).generatorRetryToken = s.generatorRetryToken ∧
    (installInitialCrypters s).retryHasBeenParsed = s.retryHasBeenParsed := by
  unfold installInitialCrypters
  split <;> simp

theorem onRetryPacket_of_parsed (s : RetryState) (o n : Nat) (t : List Nat)
    (h : s.retryHasBeenParsed = true) : onRetryPacket s o n t = s := by
  unfold onRetryPacket
  split
  · rfl
  · simp [h]

/- Whatever the writer reports, the dispatch tail of WritePacket either leaves
   the sent log and the largest sent packet unchanged, or logs exactly the
   packet just written and latches its number as largest sent. -/
theorem writePacketDispatch_log
    (writerResult : WPPacket → WriteState → WriteStatus)
    (s1 : WriteState) (p : WPPacket) :
    ((writePacketDispatch writerResult s1 p).2.sentPacketNumbers =
        s1.sentPacketNumbers ∧
      (writePacketDispatch writerResult s1 p).2.largestSentPacket =
        s1.largestSentPacket) ∨
    ((writePacketDispatch writerResult s1 p).2.sentPacketNumbers =
        s1.sentPacketNumbers ++ [p.packetNumber] ∧
      (writePacketDispatch writerResult s1 p).2.largestSentPacket =
        some p.packetNumber) := by
  unfold writePacketDispatch
  split
  · left; exact ⟨rfl, rfl⟩
  · split
    · left; exact ⟨rfl, rfl⟩
    · split
      · left; exact ⟨rfl, rfl⟩
      · split
        · left; exact ⟨rfl, rfl⟩
        · right; exact ⟨rfl, rfl⟩

/- ## Claim theorems. -/

/-- Claim C7, counterexample: for a client configured with an idle timeout of
exactly one second, SetNetworkTimeouts stores one second unchanged, whereas
max(0, idle timeout minus one second) is zero; the claimed client formula is
therefore wrong at this input. -/
theorem setNetworkTimeouts_claimed_client_formula_false :
    (setNetworkTimeouts Perspective.isClient 5000000 1000000).2 = 1000000 ∧
    max (0 : Int) (1000000 - 1000000) = 0 ∧ (1000000 : Int) ≠ 0 := by
  refine ⟨rfl, by decide, by decide⟩

/-- Claim C7 (amended): SetNetworkTimeouts pads the idle timeout by
perspective: a server stores the configured idle timeout plus three seconds; a
client stores the idle timeout minus one second whenever the configured value
exceeds one second (which there coincides with max(0, idle timeout minus one
second)) and stores the configured value unchanged otherwise. -/
theorem setNetworkTimeouts_idle_padding (handshakeUs idleUs : Int) :
    (setNetworkTimeouts Perspective.isServer handshakeUs idleUs).2 = idleUs + 3000000 ∧
    (1000000 < idleUs →
      (setNetworkTimeouts Perspective.isClient handshakeUs idleUs).2 =
        max 0 (idleUs - 1000000)) ∧
    (idleUs ≤ 1000000 →
      (setNetworkTimeouts Perspective.isClient handshakeUs idleUs).2 = idleUs) := by
  refine ⟨rfl, ?_, ?_⟩
  · intro h
    simp only [setNetworkTimeouts]
    rw [if_neg (by decide), if_pos (by omega)]
    omega
  · intro h
    simp only [setNetworkTimeouts]
    rw [if_neg (by decide), if_neg (by omega)]

/-- Claim C7 (amended), witness at concrete inputs: a server with a 30 s idle
timeout stores 33 s, and a client with a 30 s idle timeout stores 29 s. -/
theorem setNetworkTimeouts_idle_padding_witness :
    (setNetworkTimeouts Perspective.isServer 60000000 30000000).2 = 30000000 + 3000000 ∧
    (setNetworkTimeouts Perspective.isClient 60000000 30000000).2 =
      max 0 (30000000 - 1000000) := by
  exact ⟨(setNetworkTimeouts_idle_padding 60000000 30000000).1,
    (setNetworkTimeouts_idle_padding 60000000 30000000).2.1 (by decide)⟩

/-- Claim C2: on a client, the first Retry whose original connection id matches
the current server connection id replaces the server connection id (also in the
packet generator) and installs the retry token, and once a retry has been
parsed every subsequent OnRetryPacket call, whatever its contents, leaves the
connection state exactly equal to the state after the first Retry. -/
theorem onRetryPacket_retry_at_most_once
    (s : RetryState) (o n : Nat) (t : List Nat)
    (hparsed : s.retryHasBeenParsed = false)
    (hmatch : o = s.serverConnectionId) :
    (onRetryPacket s o n t).serverConnectionId = n ∧
    (onRetryPacket s o n t).generatorServerConnectionId = n ∧
    (onRetryPacket s o n t).generatorRetryToken = t ∧
    (onRetryPacket s o n t).retryHasBeenParsed = true ∧
    (∀ (o' n' : Nat) (t' : List Nat),
      onRetryPacket (onRetryPacket s o n t) o' n' t' = onRetryPacket s o n t) ∧
    (∀ rs : List (Nat × Nat × List Nat),
      rs.foldl (fun st q => onRetryPacket st q.1 q.2.1 q.2.2) (onRetryPacket s o n t) =
        onRetryPacket s o n t) := by
  have hstep : onRetryPacket s o n t =
      installInitialCrypters
        { s with retryHasBeenParsed := true,
                 serverConnectionId := n,
                 generatorServerConnectionId := n,
                 generatorRetryToken := t } := by
    unfold onRetryPacket
    rw [if_neg (by simp [hmatch]), if_neg (by simp [hparsed])]
  have hfields := installInitialCrypters_fields
    { s with retryHasBeenParsed := true,
             serverConnectionId := n,
             generatorServerConnectionId := n,
             generatorRetryToken := t }
  have hid : (onRetryPacket s o n t).serverConnectionId = n := by
    rw [hstep]; exact hfields.1
  have hgid : (onRetryPacket s o n t).generatorServerConnectionId = n := by
    rw [hstep]; exact hfields.2.1
  have htok : (onRetryPacket s o n t).generatorRetryToken = t := by
    rw [hstep]; exact hfields.2.2.1
  have hflag : (onRetryPacket s o n t).retryHasBeenParsed = true := by
    rw [hstep]; exact hfields.2.2.2
  have hidem : ∀ (o' n' : Nat) (t' : List Nat),
      onRetryPacket (onRetryPacket s o n t) o' n' t' = onRetryPacket s o n t :=
    fun o' n' t' => onRetryPacket_of_parsed _ o' n' t' hflag
  refine ⟨hid, hgid, htok, hflag, hidem, ?_⟩
  intro rs
  induction rs with
  | nil => rfl
  | cons q rs ih =>
    simpa [List.foldl_cons, hidem q.1 q.2.1 q.2.2] using ih

/-- Claim C2, witness: a retry replacing connection id 1 by 2 with token 9,9 on
a fresh client connection takes effect, and a later retry with different
contents leaves the state equal to the state after the first retry. -/
theorem onRetryPacket_retry_at_most_once_witness :
    (onRetryPacket retryExampleState 1 2 [9, 9]).serverConnectionId = 2 ∧
    onRetryPacket (onRetryPacket retryExampleState 1 2 [9, 9]) 7 8 [1] =
      onRetryPacket retryExampleState 1 2 [9, 9] := by
  exact ⟨(onRetryPacket_retry_at_most_once retryExampleState 1 2 [9, 9] rfl rfl).1,
    (onRetryPacket_retry_at_most_once retryExampleState 1 2 [9, 9] rfl rfl).2.2.2.2.1 7 8 [1]⟩

/-- Claim C4: the first CloseConnection (or TearDownLocalConnectionState) on a
connected connection marks it disconnected, notifies the visitor exactly once
and cancels all eight alarms; on an already-disconnected connection both are
no-ops, so a repeated close attempt changes nothing.  scp and fp stand for
SendConnectionClosePacket and FlushPackets, which act on collaborators and
neither disconnect nor notify. -/
theorem closeConnection_idempotent_and_cancels_alarms
    (scp fp : CloseState → CloseState)
    (hscp : PreservesCloseMarkers scp) (hfp : PreservesCloseMarkers fp)
    (b b' : ConnectionCloseBehavior) (s : CloseState) :
    (s.connected = true →
      (closeConnection scp fp b s).connected = false ∧
      (closeConnection scp fp b s).visitorCloseNotifications =
        s.visitorCloseNotifications + 1 ∧
      (closeConnection scp fp b s).alarms = AlarmSet.allCancelled) ∧
    (s.connected = false →
      closeConnection scp fp b s = s ∧ tearDownLocalConnectionState fp s = s) ∧
    closeConnection scp fp b' (closeConnection scp fp b s) =
      closeConnection scp fp b s := by
  have hteardown : ∀ u : CloseState, u.connected = true →
      (tearDownLocalConnectionState fp u).connected = false ∧
      (tearDownLocalConnectionState fp u).visitorCloseNotifications =
        u.visitorCloseNotifications + 1 ∧
      (tearDownLocalConnectionState fp u).alarms = AlarmSet.allCancelled := by
    intro u hu
    unfold tearDownLocalConnectionState
    rw [hu]
    simpa [cancelAllAlarms] using (hfp u).2
  have hclosed : ∀ u : CloseState, u.connected = false →
      closeConnection scp fp b' u = u := by
    intro u hu
    unfold closeConnection
    rw [hu]
    simp
  constructor
  · intro hcon
    unfold closeConnection
    rw [hcon]
    simp only [Bool.not_true, Bool.false_eq_true, if_false]
    by_cases hb : b = ConnectionCloseBehavior.silentClose
    · simpa [hb] using hteardown s hcon
    · have h1 : (scp s).connected = true := by rw [(hscp s).1, hcon]
      have := hteardown (scp s) h1
      simpa [hb, (hscp s).2] using this
  constructor
  · intro hcon
    unfold closeConnection tearDownLocalConnectionState
    rw [hcon]
    simp
  · by_cases hcon : s.connected = true
    · have hfirst : (closeConnection scp fp b s).connected = false := by
        unfold closeConnection
        rw [hcon]
        simp only [Bool.not_true, Bool.false_eq_true, if_false]
        by_cases hb : b = ConnectionCloseBehavior.silentClose
        · simpa [hb] using (hteardown s hcon).1
        · have h1 : (scp s).connected = true := by rw [(hscp s).1, hcon]
          simpa [hb] using (hteardown (scp s) h1).1
      exact hclosed _ hfirst
    · have hcon' : s.connected = false := by
        cases h : s.connected
        · rfl
        · exact absurd h hcon
      have hno : closeConnection scp fp b s = s := by
        unfold closeConnection
        rw [hcon']
        simp
      rw [hno]
      exact hclosed s hcon'

/-- Claim C4, witness: closing a connected connection with all eight alarms
armed disconnects it, notifies the visitor once, cancels every alarm, and a
second close is a no-op. -/
theorem closeConnection_idempotent_and_cancels_alarms_witness :
    (closeConnection id id ConnectionCloseBehavior.sendConnectionClosePacket
        closeExampleState).connected = false ∧
    (closeConnection id id ConnectionCloseBehavior.sendConnectionClosePacket
        closeExampleState).visitorCloseNotifications =
      closeExampleState.visitorCloseNotifications + 1 ∧
    (closeConnection id id ConnectionCloseBehavior.sendConnectionClosePacket
        closeExampleState).alarms = AlarmSet.allCancelled ∧
    closeConnection id id ConnectionCloseBehavior.silentClose
        (closeConnection id id ConnectionCloseBehavior.sendConnectionClosePacket
          closeExampleState) =
      closeConnection id id ConnectionCloseBehavior.sendConnectionClosePacket
        closeExampleState := by
  have h := closeConnection_idempotent_and_cancels_alarms id id
    (fun s => ⟨rfl, rfl⟩) (fun s => ⟨rfl, rfl⟩)
    ConnectionCloseBehavior.sendConnectionClosePacket ConnectionCloseBehavior.silentClose
    closeExampleState
  exact ⟨(h.1 rfl).1, (h.1 rfl).2.1, (h.1 rfl).2.2, h.2.2⟩

/-- Claim C1: for an ACK frame arriving in a packet numbered above the largest
packet so far seen carrying an ACK (and with no other ACK frame of the same
packet mid-processing), OnAckFrameStart fatally closes the connection with
InvalidAckData whenever largest_acked strictly exceeds the largest packet the
endpoint has sent, while largest_acked exactly equal to the largest sent
packet is accepted: the handler returns true, stays connected, marks the ACK
frame as being processed and hands it to the sent-packet manager.  The
acceptance part assumes the sent-packet manager's invariant that its largest
acked packet never exceeds its largest sent packet. -/
theorem onAckFrameStart_largest_acked_boundary
    (s : AckFrameState) (largestAcked : Nat)
    (hproc : s.processingAckFrame = false)
    (hnew : ∀ m, s.largestSeenPacketWithAck = some m →
      m < s.lastHeaderPacketNumber) :
    (∀ sent, s.largestSentPacket = some sent → sent < largestAcked →
      onAckFrameStart s largestAcked =
        (false, { s with connected := false },
          [AckStartEvent.closeInvalidAckData AckCloseDetail.largestObservedTooHigh])) ∧
    (s.largestSentPacket = some largestAcked →
      (∀ acked, s.largestAckedPacket = some acked → acked ≤ largestAcked) →
      (onAckFrameStart s largestAcked).1 = true ∧
      (onAckFrameStart s largestAcked).2.1.connected = s.connected ∧
      (onAckFrameStart s largestAcked).2.1.processingAckFrame = true ∧
      AckStartEvent.managerAckStarted ∈ (onAckFrameStart s largestAcked).2.2 ∧
      (∀ d, AckStartEvent.closeInvalidAckData d ∉ (onAckFrameStart s largestAcked).2.2)) := by
  have hold : isOldAckPacket s = false := by
    unfold isOldAckPacket
    cases hseen : s.largestSeenPacketWithAck with
    | none => rfl
    | some m =>
      have := hnew m hseen
      simp
      omega
  constructor
  · intro sent hsent hlt
    have hobs : ackObservesUnsentPacket s largestAcked = true := by
      unfold ackObservesUnsentPacket
      rw [hsent]
      simpa using hlt
    unfold onAckFrameStart
    rw [hproc, hold, hobs]
    simp
  · intro hsent hacked
    have hobs : ackObservesUnsentPacket s largestAcked = false := by
      unfold ackObservesUnsentPacket
      rw [hsent]
      simp
    unfold onAckFrameStart
    rw [hproc, hold, hobs]
    simp only [Bool.false_eq_true, if_false, if_true]
    cases hlap : s.largestAckedPacket with
    | none => simp
    | some acked =>
      have hle := hacked acked hlap
      by_cases hfwd : acked < largestAcked
      · simp [hfwd]
      · have heq : ¬largestAcked < acked := by omega
        simp [hfwd, heq]

/-- Claim C1, witness: in a state that last sent packet 10, an ACK frame in
packet 5 (above the largest ack-carrying packet 3) claiming largest_acked 11
closes the connection with InvalidAckData, while largest_acked 10 is accepted
and processing continues. -/
theorem onAckFrameStart_largest_acked_boundary_witness :
    onAckFrameStart ackExampleState 11 =
      (false, { ackExampleState with connected := false },
        [AckStartEvent.closeInvalidAckData AckCloseDetail.largestObservedTooHigh]) ∧
    (onAckFrameStart ackExampleState 10).1 = true ∧
    (onAckFrameStart ackExampleState 10).2.1.connected = ackExampleState.connected ∧
    (onAckFrameStart ackExampleState 10).2.1.processingAckFrame = true := by
  have h11 := onAckFrameStart_largest_acked_boundary ackExampleState 11 rfl
    (by intro m hm; injection hm with h; subst h; decide)
  have h10 := onAckFrameStart_largest_acked_boundary ackExampleState 10 rfl
    (by intro m hm; injection hm with h; subst h; decide)
  have hacc := h10.2 rfl (by intro a ha; injection ha with h; omega)
  exact ⟨h11.1 10 rfl (by decide), hacc.1, hacc.2.1, hacc.2.2.1⟩

/-- Claim C6, counterexample: a server in NegotiationInProgress receiving the
supported version Q046 accepts it (the handler returns true), but the
negotiation state does not remain NegotiationInProgress: the common tail of
OnProtocolVersionMismatch advances it to NegotiatedVersion. -/
theorem onProtocolVersionMismatch_state_changes_on_success :
    (onProtocolVersionMismatch serverInProgressState versionQ46).1 = true ∧
    (onProtocolVersionMismatch serverInProgressState versionQ46).2.versionNegotiationState ≠
      VersionNegotiationState.negotiationInProgress ∧
    (onProtocolVersionMismatch serverInProgressState versionQ46).2.versionNegotiationState =
      VersionNegotiationState.negotiatedVersion := by
  refine ⟨rfl, by decide, rfl⟩

/-- Claim C6 (amended): for a server in NegotiationInProgress,
OnProtocolVersionMismatch with a supported received version accepts the new
version and advances the negotiation state to NegotiatedVersion, exactly as
from StartNegotiation; only a rejected (unsupported) version leaves the state
in NegotiationInProgress, while a version negotiation packet is emitted. -/
theorem onProtocolVersionMismatch_inProgress
    (s : VersionState) (v : ParsedQuicVersion)
    (hpers : s.perspective = Perspective.isServer)
    (hnvn : s.noVersionNegotiation = false)
    (hstate : s.versionNegotiationState =
      VersionNegotiationState.negotiationInProgress) :
    (s.supportedVersions.contains v = true →
      onProtocolVersionMismatch s v =
        (true,
          { s with framerVersion := v,
                   versionNegotiationState := VersionNegotiationState.negotiatedVersion,
                   visitorNotifiedOfSuccess := true,
                   noStopWaitingFrames := hasIetfInvariantHeader v.transportVersion })) ∧
    (s.supportedVersions.contains v = false →
      onProtocolVersionMismatch s v =
        (false, { s with sentVersionNegotiationPacket := true })) := by
  constructor
  · intro hsup
    have hmem : v ∈ s.supportedVersions := by simpa using hsup
    unfold onProtocolVersionMismatch
    rw [hpers, hnvn, hstate]
    simp [hmem, acceptNewVersion, hpers, hnvn]
  · intro hsup
    have hmem : v ∉ s.supportedVersions := by simpa using hsup
    unfold onProtocolVersionMismatch
    rw [hpers, hnvn, hstate]
    simp [hmem, hpers, hnvn]

/-- Claim C6 (amended), witness: the in-progress server accepting Q046 lands in
NegotiatedVersion with the framer latched to Q046, and rejecting the
unsupported T099 keeps it in NegotiationInProgress. -/
theorem onProtocolVersionMismatch_inProgress_witness :
    onProtocolVersionMismatch serverInProgressState versionQ46 =
      (true,
        { serverInProgressState with
            framerVersion := versionQ46,
            versionNegotiationState := VersionNegotiationState.negotiatedVersion,
            visitorNotifiedOfSuccess := true,
            noStopWaitingFrames := hasIetfInvariantHeader versionQ46.transportVersion }) ∧
    onProtocolVersionMismatch serverInProgressState versionT99 =
      (false, { serverInProgressState with sentVersionNegotiationPacket := true }) := by
  exact ⟨(onProtocolVersionMismatch_inProgress serverInProgressState versionQ46
      rfl rfl rfl).1 (by decide),
    (onProtocolVersionMismatch_inProgress serverInProgressState versionT99
      rfl rfl rfl).2 (by decide)⟩

/-- Claim C5, counterexample: a client in StartNegotiation with versions Q046
then T099 supported receives a version negotiation packet listing only T099
(not containing its selected Q046).  A mutual version exists (the framer's
preference scan finds T099), yet the connection does not enter
NegotiationInProgress and retransmits nothing: because the mutual version uses
a different handshake protocol, the connection closes with InvalidVersion. -/
theorem onVersionNegotiationPacket_mutual_version_can_still_close :
    (clientStartState.supportedVersions.find?
        (fun v => [versionT99].contains v)).isSome = true ∧
    [versionT99].contains clientStartState.framerVersion = false ∧
    (onVersionNegotiationPacket clientStartState [versionT99]).versionNegotiationState ≠
      VersionNegotiationState.negotiationInProgress ∧
    (onVersionNegotiationPacket clientStartState [versionT99]).retransmittedAllUnacked =
      false ∧
    (onVersionNegotiationPacket clientStartState [versionT99]).connected = false ∧
    (onVersionNegotiationPacket clientStartState [versionT99]).closeError =
      some QuicErrorCode.invalidVersion := by
  refine ⟨rfl, rfl, by decide, rfl, rfl, rfl⟩

/-- Claim C5 (amended): for a connected client in StartNegotiation, with the
no-client-connection-version-negotiation flag disabled, receiving a version
negotiation packet that does not list its current version: if no locally
supported version (scanned in preference order) is in the peer's list, the
connection closes with InvalidVersion; if the first such mutual version keeps
the current handshake protocol, it is selected, the state becomes
NegotiationInProgress and all unacked packets are retransmitted; if the mutual
version changes the handshake protocol, the connection closes with
InvalidVersion instead. -/
theorem onVersionNegotiationPacket_client_start
    (s : VersionState) (pkts : List ParsedQuicVersion)
    (hpers : s.perspective = Perspective.isClient)
    (hcon : s.connected = true)
    (hstate : s.versionNegotiationState = VersionNegotiationState.startNegotiation)
    (hflag : s.noClientConnVerNegotiationFlag = false)
    (hnotcur : pkts.contains s.framerVersion = false) :
    (s.supportedVersions.find? (fun v => pkts.contains v) = none →
      (onVersionNegotiationPacket s pkts).connected = false ∧
      (onVersionNegotiationPacket s pkts).closeError = some QuicErrorCode.invalidVersion) ∧
    (∀ v, s.supportedVersions.find? (fun v' => pkts.contains v') = some v →
      v.handshakeProtocol = s.framerVersion.handshakeProtocol →
      (onVersionNegotiationPacket s pkts).framerVersion = v ∧
      (onVersionNegotiationPacket s pkts).versionNegotiationState =
        VersionNegotiationState.negotiationInProgress ∧
      (onVersionNegotiationPacket s pkts).retransmittedAllUnacked = true ∧
      (onVersionNegotiationPacket s pkts).connected = s.connected) ∧
    (∀ v, s.supportedVersions.find? (fun v' => pkts.contains v') = some v →
      v.handshakeProtocol ≠ s.framerVersion.handshakeProtocol →
      (onVersionNegotiationPacket s pkts).connected = false ∧
      (onVersionNegotiationPacket s pkts).closeError = some QuicErrorCode.invalidVersion) := by
  have hbase : onVersionNegotiationPacket s pkts =
      (let s1 := { s with serverSupportedVersions := pkts }
       let r := selectMutualVersion s1 pkts
       if !r.1 then vsClose r.2 QuicErrorCode.invalidVersion
       else if s.framerVersion.handshakeProtocol ≠ r.2.framerVersion.handshakeProtocol then
         vsClose r.2 QuicErrorCode.invalidVersion
       else
         { r.2 with
             noStopWaitingFrames :=
               hasIetfInvariantHeader r.2.framerVersion.transportVersion,
             versionNegotiationState := VersionNegotiationState.negotiationInProgress,
             retransmittedAllUnacked := true }) := by
    have hnot : s.framerVersion ∉ pkts := by simpa using hnotcur
    unfold onVersionNegotiationPacket
    rw [hpers, hstate, hflag]
    simp [hnot]
  refine ⟨?_, ?_, ?_⟩
  · intro hfind
    rw [hbase]
    simp only [selectMutualVersion, hfind]
    simp [vsClose, hcon]
  · intro v hfind hproto
    rw [hbase]
    simp only [selectMutualVersion, hfind]
    simp [hproto, hcon]
  · intro v hfind hproto
    have hne : s.framerVersion.handshakeProtocol ≠ v.handshakeProtocol :=
      fun h => hproto (Eq.symm h)
    rw [hbase]
    simp only [selectMutualVersion, hfind]
    simp [vsClose, hcon, hne]

/-- Claim C5 (amended), witness: with supported versions Q046 then Q043 and a
peer list of only Q043, the client selects Q043, enters NegotiationInProgress
and retransmits; with a peer list containing no supported version, it closes
with InvalidVersion. -/
theorem onVersionNegotiationPacket_client_start_witness :
    (onVersionNegotiationPacket clientStartStateQ [versionQ43]).framerVersion =
      versionQ43 ∧
    (onVersionNegotiationPacket clientStartStateQ [versionQ43]).versionNegotiationState =
      VersionNegotiationState.negotiationInProgress ∧
    (onVersionNegotiationPacket clientStartStateQ [versionQ43]).retransmittedAllUnacked =
      true ∧
    (onVersionNegotiationPacket clientStartStateQ
        [{ handshakeProtocol := HandshakeProtocol.quicCrypto, transportVersion := 39 }]).closeError =
      some QuicErrorCode.invalidVersion := by
  have hmut := (onVersionNegotiationPacket_client_start clientStartStateQ [versionQ43]
    rfl rfl rfl rfl (by decide)).2.1 versionQ43 (by decide) rfl
  have hnone := (onVersionNegotiationPacket_client_start clientStartStateQ
    [{ handshakeProtocol := HandshakeProtocol.quicCrypto, transportVersion := 39 }]
    rfl rfl rfl rfl (by decide)).1 (by decide)
  exact ⟨hmut.1, hmut.2.1, hmut.2.2.1, hnone.2⟩

/-- Claim C8, counterexample: on a connected connection that is already
forward secure and has sent packet 10, WritePacket on an Initial-level packet
numbered 5 (strictly below the largest sent) does not fatally close the
connection: ShouldDiscardPacket runs first and drops the packet silently, so
the state is returned unchanged, still connected and with no close error. -/
theorem writePacket_out_of_order_discarded_not_closed :
    writeExampleState.connected = true ∧
    staleInitialPacket.packetNumber < 10 ∧
    writeExampleState.largestSentPacket = some 10 ∧
    writePacket okWriter writeExampleState staleInitialPacket =
      (true, writeExampleState) ∧
    (writePacket okWriter writeExampleState staleInitialPacket).2.connected = true ∧
    (writePacket okWriter writeExampleState staleInitialPacket).2.closeError = none := by
  refine ⟨rfl, by decide, rfl, rfl, rfl, rfl⟩

/-- Claim C8 (amended): for a serialized packet that WritePacket does not
discard (the connection is connected and the packet is not an Initial-level
leftover on a forward-secure connection), a packet number strictly below the
largest packet number already sent fatally closes the connection with
InternalError, and no write takes place; consequently the log of packet
numbers actually sent never decreases (every WritePacket call preserves the
monotone-send invariant). -/
theorem writePacket_packet_numbers_never_decrease
    (writerResult : WPPacket → WriteState → WriteStatus)
    (s : WriteState) (p : WPPacket) :
    (∀ largest, s.connected = true →
      (s.encryptionLevel = EncryptionLevel.encForwardSecure →
        p.encryptionLevel ≠ EncryptionLevel.encInitial) →
      s.largestSentPacket = some largest → p.packetNumber < largest →
      writePacket writerResult s p =
        (true, { s with connected := false,
                        closeError := some QuicErrorCode.internalError })) ∧
    (SentLogMonotone s → SentLogMonotone (writePacket writerResult s p).2) := by
  constructor
  · intro largest hcon hlevel hsent hlt
    have hdisc : shouldDiscardPacket s p = false := by
      unfold shouldDiscardPacket
      rw [hcon]
      simp only [Bool.not_true, Bool.false_eq_true, if_false]
      by_cases hfs : s.encryptionLevel = EncryptionLevel.encForwardSecure
      · simp [hfs, hlevel hfs]
      · simp [hfs]
    have hooo : packetOutOfOrder s p = true := by
      unfold packetOutOfOrder
      rw [hsent]
      simpa using hlt
    unfold writePacket
    rw [hdisc, hooo]
    simp
  · intro hinv
    obtain ⟨hpw, hbound⟩ := hinv
    unfold writePacket
    by_cases hdisc : shouldDiscardPacket s p = true
    · simp only [hdisc, if_true]
      exact ⟨hpw, hbound⟩
    · rw [Bool.not_eq_true] at hdisc
      simp only [hdisc, Bool.false_eq_true, if_false]
      by_cases hooo : packetOutOfOrder s p = true
      · simp only [hooo, if_true]
        exact ⟨hpw, hbound⟩
      · rw [Bool.not_eq_true] at hooo
        simp only [hooo, Bool.false_eq_true, if_false]
        have hmax : ∀ x ∈ s.sentPacketNumbers, x ≤ p.packetNumber := by
          intro x hx
          obtain ⟨largest, hL, hxL⟩ := hbound x hx
          have hnl : ¬ p.packetNumber < largest := by
            unfold packetOutOfOrder at hooo
            rw [hL] at hooo
            simpa using hooo
          omega
        by_cases hblk : (handleWriteBlocked s && !p.hasConnectionCloseFrame) = true
        · simp only [hblk, if_true]
          exact ⟨hpw, hbound⟩
        · rw [Bool.not_eq_true] at hblk
          simp only [hblk, Bool.false_eq_true, if_false]
          set s1 : WriteState :=
            (if p.hasConnectionCloseFrame then
              { s with terminationPacketsSaved := s.terminationPacketsSaved + 1 }
             else s) with hs1
          have hfields : s1.sentPacketNumbers = s.sentPacketNumbers ∧
              s1.largestSentPacket = s.largestSentPacket := by
            rw [hs1]
            split <;> exact ⟨rfl, rfl⟩
          rcases writePacketDispatch_log writerResult s1 p with ⟨h1, h2⟩ | ⟨h1, h2⟩
          · constructor
            · rw [h1, hfields.1]
              exact hpw
            · intro x hx
              rw [h1, hfields.1] at hx
              rw [h2, hfields.2]
              exact hbound x hx
          · constructor
            · rw [h1, hfields.1]
              refine List.pairwise_append.mpr ⟨hpw, List.pairwise_singleton _ _, ?_⟩
              intro a ha b hb
              have hbp : b = p.packetNumber := by simpa using hb
              rw [hbp]
              exact hmax a ha
            · intro x hx
              rw [h1, hfields.1] at hx
              rw [h2]
              rcases List.mem_append.mp hx with hx' | hx'
              · exact ⟨p.packetNumber, rfl, hmax x hx'⟩
              · have hxp : x = p.packetNumber := by simpa using hx'
                exact ⟨p.packetNumber, rfl, by omega⟩

/-- Claim C8 (amended), witness: on a connected Initial-level connection that
has sent packet 10, writing packet 5 closes the connection with InternalError,
and the monotone-send invariant holds of the resulting state. -/
theorem writePacket_packet_numbers_never_decrease_witness :
    writePacket okWriter writeExampleStateInitial staleInitialPacket =
      (true, { writeExampleStateInitial with
                 connected := false,
                 closeError := some QuicErrorCode.internalError }) ∧
    SentLogMonotone (writePacket okWriter writeExampleStateInitial staleInitialPacket).2 := by
  have h := writePacket_packet_numbers_never_decrease okWriter
    writeExampleStateInitial staleInitialPacket
  refine ⟨h.1 10 rfl (by intro hfs; exact absurd hfs (by decide)) rfl (by decide), ?_⟩
  refine h.2 ⟨?_, ?_⟩
  · simp [writeExampleStateInitial, writeExampleState]
  · intro x hx
    simp [writeExampleStateInitial, writeExampleState] at hx
    exact ⟨10, rfl, by omega⟩

/- With a queue-preserving WritePacket, fuel equal to the current queue length
   lets the C++ while loop consume exactly the queued packets, and the loop
   coincides with the FIFO drain written from the specification. -/
theorem writeQueuedLoop_eq_drainFIFO
    (wp : QueuedPacket → SendQueueState → Bool × SendQueueState)
    (hwp : QueuePreserving wp) :
    ∀ (q : List QueuedPacket) (s : SendQueueState), s.queuedPackets = q →
      writeQueuedLoop wp q.length s = drainFIFO wp q s := by
  intro q
  induction q with
  | nil =>
    intro s hq
    rfl
  | cons p rest ih =>
    intro s hq
    simp only [List.length_cons, writeQueuedLoop, drainFIFO, hq]
    by_cases hfail : ((wp p { s with queuedPackets := rest }).2.connected &&
        !(wp p { s with queuedPackets := rest }).1) = true
    · simp only [hfail, if_true]
    · rw [Bool.not_eq_true] at hfail
      simp only [hfail, Bool.false_eq_true, if_false]
      by_cases hdead : (!(wp p { s with queuedPackets := rest }).2.connected) = true
      · simp only [hdead, if_true]
      · rw [Bool.not_eq_true] at hdead
        simp only [hdead, Bool.false_eq_true, if_false]
        have hcon : (wp p { s with queuedPackets := rest }).2.connected = true := by
          cases hc : (wp p { s with queuedPackets := rest }).2.connected
          · rw [hc] at hdead
            simp at hdead
          · rfl
        exact ih (wp p { s with queuedPackets := rest }).2
          (hwp p { s with queuedPackets := rest } hcon)

/-- Claim C3: SendOrQueuePacket writes a serialized packet (with a non-null
buffer) immediately exactly when the queue of pending packets is empty and
WritePacket succeeds; with a non-empty queue WritePacket is not even invoked
and the packet (same buffer bytes, freshly owned) is appended at the tail, and
after a failed immediate write it is likewise appended at the tail.
WriteQueuedPackets, for any WritePacket that leaves the queue alone while the
connection stays open, coincides with the FIFO drain that pops the head,
re-inserts it at the head and stops when a write fails while still connected,
and stops on disconnect. -/
theorem sendOrQueuePacket_queue_discipline
    (wp : QueuedPacket → SendQueueState → Bool × SendQueueState)
    (svnp : SendQueueState → SendQueueState)
    (p : QueuedPacket) (s : SendQueueState) (buf : List Nat)
    (hbuf : p.encryptedBuffer = some buf) :
    (s.queuedPackets = [] → (wp p s).1 = true →
      sendOrQueuePacket wp p s = (wp p s).2) ∧
    (s.queuedPackets ≠ [] →
      sendOrQueuePacket wp p s = { s with queuedPackets := s.queuedPackets ++ [p] }) ∧
    (s.queuedPackets = [] → (wp p s).1 = false →
      sendOrQueuePacket wp p s =
        { (wp p s).2 with queuedPackets := (wp p s).2.queuedPackets ++ [p] }) ∧
    (QueuePreserving wp → s.pendingVersionNegotiationPacket = false →
      writeQueuedPackets wp svnp s = drainFIFO wp s.queuedPackets s) := by
  refine ⟨?_, ?_, ?_, ?_⟩
  · intro hq hok
    unfold sendOrQueuePacket
    rw [hbuf]
    simp [hq, hok]
  · intro hq
    unfold sendOrQueuePacket
    rw [hbuf]
    simp [hq]
  · intro hq hfail
    unfold sendOrQueuePacket
    rw [hbuf]
    simp [hq, hfail]
  · intro hwp hvnp
    unfold writeQueuedPackets
    rw [hvnp]
    simp only [Bool.false_eq_true, if_false]
    exact writeQueuedLoop_eq_drainFIFO wp hwp s.queuedPackets s rfl

/-- Claim C3, witness: with an always-succeeding state-preserving WritePacket,
a packet offered to an empty queue is written immediately, the same packet
offered to a two-deep queue joins the tail, and WriteQueuedPackets on the
two-deep queue equals the FIFO drain of its queue. -/
theorem sendOrQueuePacket_queue_discipline_witness :
    sendOrQueuePacket okQueueWriter queuedA emptyQueueState =
      (okQueueWriter queuedA emptyQueueState).2 ∧
    sendOrQueuePacket okQueueWriter queuedA twoQueuedState =
      { twoQueuedState with queuedPackets := twoQueuedState.queuedPackets ++ [queuedA] } ∧
    writeQueuedPackets okQueueWriter id twoQueuedState =
      drainFIFO okQueueWriter twoQueuedState.queuedPackets twoQueuedState := by
  refine ⟨?_, ?_, ?_⟩
  · exact (sendOrQueuePacket_queue_discipline okQueueWriter id queuedA
      emptyQueueState [1, 2] rfl).1 rfl rfl
  · exact (sendOrQueuePacket_queue_discipline okQueueWriter id queuedA
      twoQueuedState [1, 2] rfl).2.1 (by decide)
  · exact (sendOrQueuePacket_queue_discipline okQueueWriter id queuedA
      twoQueuedState [1, 2] rfl).2.2.2 (fun p s h => rfl) rfl

/- Helper lemmas for the SendAllPendingAcks loop. -/

theorem levelSpace_roundtrip (sp : PacketNumberSpace) :
    levelPacketNumberSpace (spaceEncryptionLevel sp) = sp := by
  cases sp <;> rfl

theorem sendAcksLoop_skip (flushOk : PacketNumberSpace → Bool)
    (sp : PacketNumberSpace) (rest : List PacketNumberSpace) (s : MultiAckState)
    (h : ackTimeoutDue s sp = false) :
    sendAcksLoop flushOk (sp :: rest) s = sendAcksLoop flushOk rest s := by
  simp only [sendAcksLoop]
  rw [h]
  simp

theorem sendAcksLoop_flush_step (flushOk : PacketNumberSpace → Bool)
    (sp : PacketNumberSpace) (rest : List PacketNumberSpace) (s : MultiAckState)
    (hdue : ackTimeoutDue s sp = true)
    (henc : hasEncrypterOfLevel s (spaceEncryptionLevel sp) = true)
    (hfl : flushOk sp = true) :
    sendAcksLoop flushOk (sp :: rest) s =
      sendAcksLoop flushOk rest (ackFlushStep s sp) := by
  simp only [sendAcksLoop]
  rw [hdue, henc, hfl]
  simp only [Bool.not_true, Bool.false_eq_true, if_false]
  unfold ackFlushStep setDefaultEncryptionLevel resetAckStates
  simp [levelSpace_roundtrip]

theorem ackFlushStep_encrypters (s : MultiAckState) (sp : PacketNumberSpace)
    (l : EncryptionLevel) :
    hasEncrypterOfLevel (ackFlushStep s sp) l = hasEncrypterOfLevel s l := by
  cases sp <;> cases l <;> rfl

theorem ackFlushStep_flushedAcks (s : MultiAckState) (sp : PacketNumberSpace) :
    (ackFlushStep s sp).flushedAcks =
      s.flushedAcks ++ [(sp, spaceEncryptionLevel sp)] := by
  cases sp <;> rfl

theorem ackFlushStep_getAckTimeout (s : MultiAckState) (sp sp' : PacketNumberSpace) :
    getAckTimeout (ackFlushStep s sp) sp' =
      if sp' = sp then none else getAckTimeout s sp' := by
  cases sp <;> cases sp' <;> rfl

theorem ackFlushStep_due (s : MultiAckState) (sp sp' : PacketNumberSpace) :
    ackTimeoutDue (ackFlushStep s sp) sp' =
      if sp' = sp then false else ackTimeoutDue s sp' := by
  cases sp <;> cases sp' <;> rfl

theorem rearmAckAlarm_flushedAcks (s : MultiAckState) :
    (rearmAckAlarm s).flushedAcks = s.flushedAcks := by
  unfold rearmAckAlarm
  cases earliestAckTimeout s <;> rfl

theorem rearmAckAlarm_getAckTimeout (s : MultiAckState) (sp : PacketNumberSpace) :
    getAckTimeout (rearmAckAlarm s) sp = getAckTimeout s sp := by
  unfold rearmAckAlarm
  cases earliestAckTimeout s with
  | none => rfl
  | some t => cases sp <;> rfl

theorem rearmAckAlarm_encryptionLevel (s : MultiAckState) :
    (rearmAckAlarm s).encryptionLevel = s.encryptionLevel := by
  unfold rearmAckAlarm
  cases earliestAckTimeout s <;> rfl

theorem setDefaultEncryptionLevel_getAckTimeout (s : MultiAckState)
    (l : EncryptionLevel) (sp : PacketNumberSpace) :
    getAckTimeout (setDefaultEncryptionLevel s l) sp = getAckTimeout s sp := by
  cases sp <;> rfl

theorem sendAllPendingAcks_proj (flushOk : PacketNumberSpace → Bool)
    (s : MultiAckState) :
    (sendAllPendingAcks flushOk s).flushedAcks =
      (sendAcksLoop flushOk
        [PacketNumberSpace.initialData, PacketNumberSpace.handshakeData,
         PacketNumberSpace.applicationData] s).flushedAcks ∧
    (∀ sp, getAckTimeout (sendAllPendingAcks flushOk s) sp =
      getAckTimeout (sendAcksLoop flushOk
        [PacketNumberSpace.initialData, PacketNumberSpace.handshakeData,
         PacketNumberSpace.applicationData] s) sp) := by
  unfold sendAllPendingAcks
  refine ⟨?_, ?_⟩
  · rw [rearmAckAlarm_flushedAcks]
    rfl
  · intro sp
    rw [rearmAckAlarm_getAckTimeout, setDefaultEncryptionLevel_getAckTimeout]

/-- Claim C10: SendAllPendingAcks leaves the connection's default encryption
level unchanged: whatever the per-space ack timeouts and whether or not any
ACK flush fails midway (any flush verdict oracle), the encryption level on
return equals its value at entry; the per-space level switches are internal to
the call. -/
theorem sendAllPendingAcks_preserves_encryption_level
    (flushOk : PacketNumberSpace → Bool) (s : MultiAckState) :
    (sendAllPendingAcks flushOk s).encryptionLevel = s.encryptionLevel := by
  unfold sendAllPendingAcks
  rw [rearmAckAlarm_encryptionLevel]
  rfl

/- The SendAllPendingAcks loop over any duplicate-free space list, when the
   framer has encrypters for the due spaces and every flush succeeds: it logs
   one ACK per due space, in list order and at the space's encryption level,
   clears each due space's ack timeout, and leaves the other timeouts alone. -/
theorem sendAcksLoop_drains (flushOk : PacketNumberSpace → Bool)
    (hflush : ∀ sp, flushOk sp = true) :
    ∀ (sps : List PacketNumberSpace) (s : MultiAckState),
      (∀ sp ∈ sps, ackTimeoutDue s sp = true →
        hasEncrypterOfLevel s (spaceEncryptionLevel sp) = true) →
      sps.Nodup →
      (sendAcksLoop flushOk sps s).flushedAcks =
        s.flushedAcks ++ (sps.filter (fun sp => ackTimeoutDue s sp)).map
          (fun sp => (sp, spaceEncryptionLevel sp)) ∧
      (∀ sp ∈ sps, ackTimeoutDue s sp = true →
        getAckTimeout (sendAcksLoop flushOk sps s) sp = none) ∧
      (∀ sp, ackTimeoutDue s sp = false →
        getAckTimeout (sendAcksLoop flushOk sps s) sp = getAckTimeout s sp) := by
  intro sps
  induction sps with
  | nil =>
    intro s henc hnd
    refine ⟨by simp [sendAcksLoop], ?_, ?_⟩
    · intro sp hsp
      cases hsp
    · intro sp hdf
      rfl
  | cons head rest ih =>
    intro s henc hnd
    have hndr : rest.Nodup := (List.nodup_cons.mp hnd).2
    have hnotin : head ∉ rest := (List.nodup_cons.mp hnd).1
    by_cases dh : ackTimeoutDue s head = true
    · have hstep := sendAcksLoop_flush_step flushOk head rest s dh
        (henc head (List.mem_cons_self head rest) dh) (hflush head)
      have hPre : ∀ sp ∈ rest, ackTimeoutDue (ackFlushStep s head) sp = true →
          hasEncrypterOfLevel (ackFlushStep s head) (spaceEncryptionLevel sp) = true := by
        intro sp hmem hdue
        rw [ackFlushStep_encrypters]
        have hne : sp ≠ head := fun h => hnotin (h ▸ hmem)
        rw [ackFlushStep_due, if_neg hne] at hdue
        exact henc sp (List.mem_cons_of_mem head hmem) hdue
      have hIH := ih (ackFlushStep s head) hPre hndr
      refine ⟨?_, ?_, ?_⟩
      · rw [hstep, hIH.1, ackFlushStep_flushedAcks]
        have hf : rest.filter (fun sp => ackTimeoutDue (ackFlushStep s head) sp) =
            rest.filter (fun sp => ackTimeoutDue s sp) := by
          apply List.filter_congr
          intro x hx
          have hne : x ≠ head := fun h => hnotin (h ▸ hx)
          rw [ackFlushStep_due, if_neg hne]
        rw [hf]
        simp [List.filter_cons, dh, List.append_assoc]
      · intro sp hmem hdue
        rw [hstep]
        rcases List.mem_cons.mp hmem with rfl | hmr
        · have hd1 : ackTimeoutDue (ackFlushStep s sp) sp = false := by
            rw [ackFlushStep_due, if_pos rfl]
          rw [hIH.2.2 sp hd1, ackFlushStep_getAckTimeout, if_pos rfl]
        · have hne : sp ≠ head := fun h => hnotin (h ▸ hmr)
          have hd1 : ackTimeoutDue (ackFlushStep s head) sp = true := by
            rw [ackFlushStep_due, if_neg hne]
            exact hdue
          exact hIH.2.1 sp hmr hd1
      · intro sp hdf
        rw [hstep]
        have hne : sp ≠ head := by
          intro h
          rw [h, dh] at hdf
          exact Bool.noConfusion hdf
        have hd1 : ackTimeoutDue (ackFlushStep s head) sp = false := by
          rw [ackFlushStep_due, if_neg hne]
          exact hdf
        rw [hIH.2.2 sp hd1, ackFlushStep_getAckTimeout, if_neg hne]
    · rw [Bool.not_eq_true] at dh
      have hstep := sendAcksLoop_skip flushOk head rest s dh
      have hIH := ih s (fun sp hm => henc sp (List.mem_cons_of_mem head hm)) hndr
      refine ⟨?_, ?_, ?_⟩
      · rw [hstep, hIH.1]
        simp [List.filter_cons, dh]
      · intro sp hmem hdue
        rw [hstep]
        rcases List.mem_cons.mp hmem with rfl | hmr
        · rw [dh] at hdue
          exact Bool.noConfusion hdue
        · exact hIH.2.1 sp hmr hdue
      · intro sp hdf
        rw [hstep]
        exact hIH.2.2 sp hdf

/-- Claim C9: with multiple packet number spaces, SendAllPendingAcks visits
the spaces in the fixed order Initial, Handshake, ApplicationData; provided
the framer holds an encrypter for every due space (the source flags the
contrary as a bug) and every ACK flush succeeds, the flushed ACKs are exactly
one per space whose ack timeout has passed, appended in that order, each
logged at the encryption level of its own space (the level switch precedes
the flush), and each flushed space's ack state is reset (its ack timeout
cleared) after the successful flush. -/
theorem sendAllPendingAcks_flushes_due_spaces_in_order
    (flushOk : PacketNumberSpace → Bool) (s : MultiAckState)
    (henc : ∀ sp, ackTimeoutDue s sp = true →
      hasEncrypterOfLevel s (spaceEncryptionLevel sp) = true)
    (hflush : ∀ sp, flushOk sp = true) :
    (sendAllPendingAcks flushOk s).flushedAcks =
      s.flushedAcks ++
        (([PacketNumberSpace.initialData, PacketNumberSpace.handshakeData,
           PacketNumberSpace.applicationData].filter
            (fun sp => ackTimeoutDue s sp)).map
          (fun sp => (sp, spaceEncryptionLevel sp))) ∧
    (∀ sp, ackTimeoutDue s sp = true →
      getAckTimeout (sendAllPendingAcks flushOk s) sp = none) := by
  have hmem : ∀ sp : PacketNumberSpace,
      sp ∈ [PacketNumberSpace.initialData, PacketNumberSpace.handshakeData,
        PacketNumberSpace.applicationData] := by
    intro sp
    cases sp <;> simp
  have hgen := sendAcksLoop_drains flushOk hflush
    [PacketNumberSpace.initialData, PacketNumberSpace.handshakeData,
     PacketNumberSpace.applicationData] s
    (fun sp _ hd => henc sp hd) (by decide)
  refine ⟨?_, ?_⟩
  · rw [(sendAllPendingAcks_proj flushOk s).1]
    exact hgen.1
  · intro sp hdue
    rw [(sendAllPendingAcks_proj flushOk s).2 sp]
    exact hgen.2.1 sp (hmem sp) hdue

/-- Claim C9, witness: at the handshake level with acks due in the Initial and
ApplicationData spaces (and none in Handshake), SendAllPendingAcks flushes
exactly two ACKs, first for Initial at the Initial encryption level, then for
ApplicationData at the forward-secure level, and clears both spaces' ack
timeouts. -/
theorem sendAllPendingAcks_flushes_due_spaces_in_order_witness :
    (sendAllPendingAcks alwaysFlushOk multiAckExampleState).flushedAcks =
      multiAckExampleState.flushedAcks ++
        (([PacketNumberSpace.initialData, PacketNumberSpace.handshakeData,
           PacketNumberSpace.applicationData].filter
            (fun sp => ackTimeoutDue multiAckExampleState sp)).map
          (fun sp => (sp, spaceEncryptionLevel sp))) ∧
    getAckTimeout (sendAllPendingAcks alwaysFlushOk multiAckExampleState)
      PacketNumberSpace.initialData = none ∧
    getAckTimeout (sendAllPendingAcks alwaysFlushOk multiAckExampleState)
      PacketNumberSpace.applicationData = none := by
  have h := sendAllPendingAcks_flushes_due_spaces_in_order alwaysFlushOk
    multiAckExampleState (by intro sp hd; cases sp <;> rfl) (fun sp => rfl)
  exact ⟨h.1, h.2 PacketNumberSpace.initialData (by decide),
    h.2 PacketNumberSpace.applicationData (by decide)⟩

end QuicConn
